import Mathlib

/-!
Shallow embedding of the usage-metering and quota-enforcement gate
(`core/usage_interceptor.go`): the unary and streaming interceptor adapters,
`preUsageFunc` and `postUsageFunc`.  External collaborators (billing ledger
client, powergate client, accounts collection) are modelled as oracles whose
responses are inputs of the model; the ledger-increment calls actually issued
by the post-hook are recorded in an explicit trace component.
-/

namespace Core

/-- The message of `mongo.ErrNoDocuments`, which the source detects with
`strings.Contains` on the lookup error. -/
def mongoErrNoDocuments : String := "mongo: no documents in result"

/-- A Go `error` value, carrying its `Error()` message. -/
structure GoError where
  msg : String
deriving DecidableEq, Repr

/-- `strings.Contains s pat`: some suffix of `s` starts with `pat`. -/
def strContains (s pat : String) : Bool :=
  (List.range (s.data.length + 1)).any (fun i => pat.data.isPrefixOf (s.data.drop i))

/-- The not-found test `strings.Contains(err.Error(), mongo.ErrNoDocuments.Error())`. -/
def containsNoDocuments (e : GoError) : Bool :=
  strContains e.msg mongoErrNoDocuments

/-- The gRPC status codes produced by the interceptor. -/
inductive GrpcCode
  | permissionDenied
  | failedPrecondition
  | resourceExhausted
deriving DecidableEq, Repr

/-- An error returned by the hooks: either a `status.Error(code, msg)` built by
the gate, or a collaborator error propagated verbatim. -/
inductive UsageErr
  | grpc (code : GrpcCode) (msg : String)
  | go (e : GoError)
deriving DecidableEq, Repr

/-- A per-category daily usage counter (`Free` and `Total`, int64). -/
structure Usage where
  free : Int
  total : Int
deriving DecidableEq, Repr

/-- Go map indexing `m[k]` on `map[string]Usage`: a missing key yields the
zero `Usage` value. -/
def getUsage (m : List (String × Usage)) (k : String) : Usage :=
  (m.lookup k).getD { free := 0, total := 0 }

/-- Modelled from the spec: the subscription status consumed by the
collaborator-owned validity rule `common.StatusCheck`
(`billingd/common`, not among the provided source files): a `valid` status
passes the check, an `invalid msg` status fails it with message `msg`. -/
inductive SubStatus
  | valid
  | invalid (msg : String)
deriving DecidableEq, Repr

/-- Modelled from the spec: `common.StatusCheck` returns an error exactly when
the subscription status fails the validity check. -/
def common_StatusCheck : SubStatus → Option String
  | SubStatus.valid => none
  | SubStatus.invalid m => some m

/-- The billing ledger's view of an owning entity. -/
structure Customer where
  billable : Bool
  subscriptionStatus : SubStatus
  dailyUsage : List (String × Usage)
deriving DecidableEq, Repr

/-- `mdb` account kinds (`mdb.Dev`, `mdb.Org`, `mdb.User`). -/
inductive AccountType
  | dev
  | org
  | user
deriving DecidableEq, Repr

/-- An `mdb.Account` record, restricted to the fields the interceptor reads.
`createdAt = 0` models the zero `time.Time` (`CreatedAt.IsZero()`). -/
structure AccountRecord where
  type : AccountType
  key : String
  email : String
  createdAt : Nat
deriving DecidableEq, Repr

/-- The account pair carried in context: the `User` record plus the optional
`Org` record. -/
structure AccountCtx where
  user : AccountRecord
  org : Option AccountRecord
deriving DecidableEq, Repr

/-- `account.Owner()`: the org when present, else the user. -/
def AccountCtx.owner (a : AccountCtx) : AccountRecord :=
  a.org.getD a.user

/-- An API key carried in context; only its `Owner` is read. -/
structure APIKey where
  owner : String
deriving DecidableEq, Repr

/-- `buckets.BucketOwner`: the quota snapshot attached for storage writes.
`storageDelta` is filled in by the handler during execution. -/
structure BucketOwner where
  storageUsed : Int
  storageAvailable : Int
  storageDelta : Int
deriving DecidableEq, Repr

/-- The call context, restricted to the values the interceptor reads and
writes: the account pair, the API key, and the bucket-owner snapshot. -/
structure Ctx where
  account : Option AccountCtx
  apiKey : Option APIKey
  bucketOwner : Option BucketOwner
deriving DecidableEq, Repr

/-- The powergate `Admin.Users.Create` response (`res.User.Id`, `res.User.Token`). -/
structure PowUser where
  id : String
  token : String
deriving DecidableEq, Repr

/-- `mdb.PowInfo`: the backend identity persisted with a new account. -/
structure PowInfo where
  id : String
  token : String
deriving DecidableEq, Repr

/-- Customer-creation options (`billing.WithEmail`, `billing.WithParentKey`). -/
inductive BillingOption
  | withEmail (email : String)
  | withParentKey (key : String)
deriving DecidableEq, Repr

/-- A recorded `IncCustomerUsage` call: the customer key and the per-category
deltas passed to the ledger. -/
structure IncCall where
  key : String
  deltas : List (String × Int)
deriving DecidableEq, Repr

/-- The billing client, modelled as one response oracle per call site
(`GetCustomer` is called a second time after `CreateCustomer`, so the
re-fetch has its own oracle). -/
structure BillingClient where
  getCustomer : String → Except GoError Customer
  createCustomer : String → List BillingOption → Except GoError Unit
  getCustomerAfterCreate : String → Except GoError Customer
  incCustomerUsage : String → List (String × Int) → Except GoError Unit

/-- The accounts collection (`t.collections.Accounts.CreateUser`). -/
structure Collections where
  createUser : String → Option PowInfo → Except GoError AccountRecord

/-- The `Textile` service state the interceptor reads: the optional billing
client `bc`, the optional powergate client `pc` (modelled by the response of
the single `Admin.Users.Create` call the pre-hook makes through it), and the
accounts collection. -/
structure Textile where
  bc : Option BillingClient
  pc : Option (Except GoError PowUser)
  collections : Collections

/-- Modelled from the spec: `authIgnoredMethods`, the identity-exempt method
list, is declared outside the provided source file; the spec gives login-style
methods as its examples. -/
def authIgnoredMethods : List String :=
  ["/api.hubd.pb.APIService/Signup",
   "/api.hubd.pb.APIService/Signin"]

/-- Modelled from the spec: `usageIgnoredMethods`, the usage-exempt method
list, is declared outside the provided source file; the spec names the billing
status call itself as its example. -/
def usageIgnoredMethods : List String :=
  ["/api.hubd.pb.APIService/GetBillingInfo"]

/-- The storage-write case list of the method switch in the hooks. -/
def storageWriteMethods : List String :=
  ["/api.bucketsd.pb.APIService/Create",
   "/api.bucketsd.pb.APIService/PushPath",
   "/api.bucketsd.pb.APIService/SetPath",
   "/api.bucketsd.pb.APIService/Remove",
   "/api.bucketsd.pb.APIService/RemovePath",
   "/api.bucketsd.pb.APIService/PushPathAccessRoles"]

/-- The record-read (threaddb read) case list of the method switch. -/
def recordReadMethods : List String :=
  ["/threads.pb.API/Verify",
   "/threads.pb.API/Has",
   "/threads.pb.API/Find",
   "/threads.pb.API/FindByID",
   "/threads.pb.API/ReadTransaction",
   "/threads.pb.API/Listen"]

/-- The record-write (threaddb write) case list of the method switch. -/
def recordWriteMethods : List String :=
  ["/threads.pb.API/Create",
   "/threads.pb.API/Save",
   "/threads.pb.API/Delete",
   "/threads.pb.API/WriteTransaction"]

/-- Modelled from the spec: the message of `common.ErrExceedsFreeQuota`
(`billingd/common`, not among the provided source files). -/
def errExceedsFreeQuota : String := "exceeds free quota"

/-- `status.Error(codes.ResourceExhausted, "network egress exhausted: ...")`. -/
def egressExhaustedErr : UsageErr :=
  UsageErr.grpc GrpcCode.resourceExhausted
    ("network egress exhausted: " ++ errExceedsFreeQuota)

/-- `status.Error(codes.ResourceExhausted, "threaddb reads exhausted: ...")`. -/
def readsExhaustedErr : UsageErr :=
  UsageErr.grpc GrpcCode.resourceExhausted
    ("threaddb reads exhausted: " ++ errExceedsFreeQuota)

/-- `status.Error(codes.ResourceExhausted, "threaddb writes exhausted: ...")`. -/
def writesExhaustedErr : UsageErr :=
  UsageErr.grpc GrpcCode.resourceExhausted
    ("threaddb writes exhausted: " ++ errExceedsFreeQuota)

/-- `preUsageFunc`: the pre-call hook.  Returns the (possibly decorated)
context and the error, mirroring the Go control flow; early `return ctx, err`
paths become the `Except.error` branches of the intermediate computations. -/
def preUsageFunc (t : Textile) (ctx : Ctx) (method : String) :
    Ctx × Option UsageErr :=
  match t.bc with
  | none => (ctx, none)
  | some bc =>
  if authIgnoredMethods.contains method then (ctx, none) else
  if usageIgnoredMethods.contains method then (ctx, none) else
  match ctx.account with
  | none => (ctx, none)
  | some account0 =>
  -- Collect new users.
  let collected : Except (Ctx × Option UsageErr) (Ctx × AccountCtx) :=
    if account0.user.createdAt = 0 ∧ account0.user.type = AccountType.user then
      match (match t.pc with
             | some createRes =>
               (match createRes with
                | Except.error e => Except.error e
                | Except.ok res =>
                    Except.ok (some (PowInfo.mk res.id res.token)))
             | none => Except.ok none : Except GoError (Option PowInfo)) with
      | Except.error e => Except.error (ctx, some (UsageErr.go e))
      | Except.ok powInfo =>
        match t.collections.createUser account0.user.key powInfo with
        | Except.error e => Except.error (ctx, some (UsageErr.go e))
        | Except.ok user =>
          Except.ok ({ ctx with account := some ⟨user, account0.org⟩ },
                     ⟨user, account0.org⟩)
    else Except.ok (ctx, account0)
  match collected with
  | Except.error r => r
  | Except.ok (ctx1, account) =>
  -- Collect new customers.
  let cusE : Except (Ctx × Option UsageErr) Customer :=
    match bc.getCustomer account.owner.key with
    | Except.ok c => Except.ok c
    | Except.error e =>
      if containsNoDocuments e then
        let opts := [BillingOption.withEmail account.owner.email]
        match (if account.owner.type = AccountType.user then
                 match ctx1.apiKey with
                 | none =>
                   Except.error (ctx1, some (UsageErr.grpc
                     GrpcCode.permissionDenied "Bad API key"))
                 | some key =>
                   Except.ok (opts ++ [BillingOption.withParentKey key.owner])
               else Except.ok opts :
               Except (Ctx × Option UsageErr) (List BillingOption)) with
        | Except.error r => Except.error r
        | Except.ok opts2 =>
          match bc.createCustomer account.owner.key opts2 with
          | Except.error e2 => Except.error (ctx1, some (UsageErr.go e2))
          | Except.ok _ =>
            match bc.getCustomerAfterCreate account.owner.key with
            | Except.error e3 => Except.error (ctx1, some (UsageErr.go e3))
            | Except.ok c => Except.ok c
      else Except.error (ctx1, some (UsageErr.go e))
  match cusE with
  | Except.error r => r
  | Except.ok cus =>
  match common_StatusCheck cus.subscriptionStatus with
  | some msg => (ctx1, some (UsageErr.grpc GrpcCode.failedPrecondition msg))
  | none =>
  if cus.billable = false ∧ (getUsage cus.dailyUsage "network_egress").free = 0
  then (ctx1, some egressExhaustedErr)
  else
  if storageWriteMethods.contains method then
    let owner : BucketOwner :=
      { storageUsed := (getUsage cus.dailyUsage "stored_data").total
        storageAvailable :=
          if cus.billable then -1
          else (getUsage cus.dailyUsage "stored_data").free
        storageDelta := 0 }
    ({ ctx1 with bucketOwner := some owner }, none)
  else if recordReadMethods.contains method then
    if cus.billable = false ∧
        (getUsage cus.dailyUsage "instance_reads").free = 0 then
      (ctx1, some readsExhaustedErr)
    else (ctx1, none)
  else if recordWriteMethods.contains method then
    if cus.billable = false ∧
        (getUsage cus.dailyUsage "instance_writes").free = 0 then
      (ctx1, some writesExhaustedErr)
    else (ctx1, none)
  else (ctx1, none)

/-- `postUsageFunc`: the post-call hook.  The second component is the trace of
`IncCustomerUsage` calls the hook issues to the billing ledger. -/
def postUsageFunc (t : Textile) (ctx : Ctx) (method : String) :
    Option UsageErr × List IncCall :=
  match t.bc with
  | none => (none, [])
  | some bc =>
  if authIgnoredMethods.contains method then (none, []) else
  match ctx.account with
  | none => (none, [])
  | some account =>
  match ctx.bucketOwner with
  | none => (none, [])
  | some owner =>
  if storageWriteMethods.contains method then
    match bc.incCustomerUsage account.owner.key
        [("stored_data", owner.storageDelta)] with
    | Except.error e =>
      (some (UsageErr.go e),
       [⟨account.owner.key, [("stored_data", owner.storageDelta)]⟩])
    | Except.ok _ =>
      (none, [⟨account.owner.key, [("stored_data", owner.storageDelta)]⟩])
  else (none, [])

/-- `unaryServerInterceptor`: composes a pre-hook, a handler and a post-hook
around a unary call.  The handler returns a Go `(interface{}, error)` pair;
the overall result carries the post-hook's increment trace (empty when the
post-hook never runs). -/
def unaryServerInterceptor {Req Res : Type}
    (pre : Ctx → String → Ctx × Option UsageErr)
    (post : Ctx → String → Option UsageErr × List IncCall)
    (handler : Ctx → Req → Option Res × Option UsageErr)
    (ctx : Ctx) (req : Req) (method : String) :
    (Option Res × Option UsageErr) × List IncCall :=
  match pre ctx method with
  | (_, some e) => ((none, some e), [])
  | (newCtx, none) =>
    match handler newCtx req with
    | (_, some e) => ((none, some e), [])
    | (res, none) =>
      match post newCtx method with
      | (some e, incs) => ((none, some e), incs)
      | (none, incs) => ((res, none), incs)

/-- `streamServerInterceptor`: the streaming shape.  The wrapped stream is
modelled by the context handed to the handler (its `WrappedContext`). -/
def streamServerInterceptor {Srv : Type}
    (pre : Ctx → String → Ctx × Option UsageErr)
    (post : Ctx → String → Option UsageErr × List IncCall)
    (handler : Srv → Ctx → Option UsageErr)
    (srv : Srv) (streamCtx : Ctx) (method : String) :
    Option UsageErr × List IncCall :=
  match pre streamCtx method with
  | (_, some e) => (some e, [])
  | (newCtx, none) =>
    match handler srv newCtx with
    | some e => (some e, [])
    | none => post newCtx method

/-! Sample collaborators and states used by the concrete witnesses. -/

/-- A billing client whose every call succeeds and whose lookups return `c`. -/
def constBC (c : Customer) : BillingClient :=
  { getCustomer := fun _ => Except.ok c
    createCustomer := fun _ _ => Except.ok ()
    getCustomerAfterCreate := fun _ => Except.ok c
    incCustomerUsage := fun _ _ => Except.ok () }

/-- A billing client whose lookup reports the mongo not-found error and whose
re-fetch returns `c`. -/
def notFoundBC (c : Customer) : BillingClient :=
  { getCustomer := fun _ => Except.error ⟨mongoErrNoDocuments⟩
    createCustomer := fun _ _ => Except.ok ()
    getCustomerAfterCreate := fun _ => Except.ok c
    incCustomerUsage := fun _ _ => Except.ok () }

/-- An accounts collection that persists a user with a non-zero timestamp. -/
def colsSample : Collections :=
  { createUser := fun k _ =>
      Except.ok { type := AccountType.user, key := k,
                  email := "new@example.com", createdAt := 9 } }

/-- A billable customer in good standing. -/
def cusBillable : Customer :=
  { billable := true, subscriptionStatus := SubStatus.valid, dailyUsage := [] }

/-- A free-tier customer whose network-egress quota is exhausted. -/
def cusEgressZero : Customer :=
  { billable := false, subscriptionStatus := SubStatus.valid
    dailyUsage := [("network_egress", ⟨0, 3⟩)] }

/-- A free-tier customer with egress left, reads exhausted, writes remaining. -/
def cusMixed : Customer :=
  { billable := false, subscriptionStatus := SubStatus.valid
    dailyUsage := [("network_egress", ⟨10, 3⟩), ("instance_reads", ⟨0, 1⟩),
                   ("instance_writes", ⟨2, 1⟩), ("stored_data", ⟨7, 5⟩)] }

/-- An already-provisioned individual-user account pair. -/
def accOld : AccountCtx :=
  { user := { type := AccountType.user, key := "u1",
              email := "u@example.com", createdAt := 5 }
    org := none }

/-- A plain call context carrying `accOld` and nothing else. -/
def sampleCtx : Ctx :=
  { account := some accOld, apiKey := none, bucketOwner := none }

/-! Claim theorems. -/

/-- C1: for every method in the identity-exempt list or the usage-exempt list,
and for every input context and billing state, the pre-hook returns its input
context unchanged with no error, and the post-hook returns no error and
performs no ledger increment. -/
theorem C1_exempt_methods_noop (t : Textile) (ctx : Ctx) (method : String)
    (hm : method ∈ authIgnoredMethods ∨ method ∈ usageIgnoredMethods) :
    preUsageFunc t ctx method = (ctx, none) ∧
    postUsageFunc t ctx method = (none, []) := by
  obtain ⟨bcv, pcv, cols⟩ := t
  obtain ⟨acc?, key?, bo?⟩ := ctx
  rcases hm with hm | hm
  · simp only [authIgnoredMethods, List.mem_cons, List.not_mem_nil,
      or_false] at hm
    rcases hm with rfl | rfl <;> cases bcv <;> exact ⟨rfl, rfl⟩
  · simp only [usageIgnoredMethods, List.mem_cons, List.not_mem_nil,
      or_false] at hm
    subst hm
    cases bcv
    · exact ⟨rfl, rfl⟩
    · exact ⟨rfl, by cases acc? <;> cases bo? <;> rfl⟩

theorem C1_exempt_methods_noop_witness :
    preUsageFunc ⟨some (constBC cusBillable), none, colsSample⟩ sampleCtx
        "/api.hubd.pb.APIService/Signin" = (sampleCtx, none) ∧
    postUsageFunc ⟨some (constBC cusBillable), none, colsSample⟩ sampleCtx
        "/api.hubd.pb.APIService/Signin" = (none, []) :=
  C1_exempt_methods_noop _ _ _ (Or.inl (by decide))

/-- C9: for every method and every context carrying no account, both hooks are
no-ops: the pre-hook returns its input context unchanged with no error, and
the post-hook returns no error and performs no increment. -/
theorem C9_no_account_noop (t : Textile) (ctx : Ctx) (method : String)
    (h : ctx.account = none) :
    preUsageFunc t ctx method = (ctx, none) ∧
    postUsageFunc t ctx method = (none, []) := by
  obtain ⟨bcv, pcv, cols⟩ := t
  obtain ⟨acc?, key?, bo?⟩ := ctx
  simp only [Ctx.account] at h
  subst h
  cases bcv
  · exact ⟨rfl, rfl⟩
  · constructor
    · show (if _ then _ else if _ then _ else _) = _
      split_ifs <;> rfl
    · show (if _ then _ else _) = _
      split_ifs <;> rfl

theorem C9_no_account_noop_witness :
    preUsageFunc ⟨some (constBC cusBillable), none, colsSample⟩
        ⟨none, none, none⟩ "/threads.pb.API/Verify" = (⟨none, none, none⟩, none) ∧
    postUsageFunc ⟨some (constBC cusBillable), none, colsSample⟩
        ⟨none, none, none⟩ "/threads.pb.API/Verify" = (none, []) :=
  C9_no_account_noop _ _ _ rfl

/-- C2: for every non-exempt method of any category, if the resolved customer
is not billable and its `network_egress` counter has zero free quota, the
pre-hook fails with `ResourceExhausted` (the egress circuit breaker) before
any per-category check runs, leaving the context unchanged. -/
theorem C2_egress_circuit_breaker
    (bc : BillingClient) (pcv : Option (Except GoError PowUser))
    (cols : Collections) (acc : AccountCtx) (key? : Option APIKey)
    (bo : Option BucketOwner) (method : String) (cus : Customer)
    (hm1 : authIgnoredMethods.contains method = false)
    (hm2 : usageIgnoredMethods.contains method = false)
    (hnew : ¬(acc.user.createdAt = 0 ∧ acc.user.type = AccountType.user))
    (hget : bc.getCustomer acc.owner.key = Except.ok cus)
    (hstat : common_StatusCheck cus.subscriptionStatus = none)
    (hbill : cus.billable = false)
    (hfree : (getUsage cus.dailyUsage "network_egress").free = 0) :
    preUsageFunc ⟨some bc, pcv, cols⟩ ⟨some acc, key?, bo⟩ method
      = (⟨some acc, key?, bo⟩, some egressExhaustedErr) := by
  simp only [preUsageFunc, hm1, hm2, Bool.false_eq_true, if_false, if_neg hnew,
    hget, hstat, hbill, hfree, and_self, if_true]

theorem C2_egress_circuit_breaker_witness :
    preUsageFunc ⟨some (constBC cusEgressZero), none, colsSample⟩ sampleCtx
        "/threads.pb.API/Verify"
      = (sampleCtx, some egressExhaustedErr) :=
  C2_egress_circuit_breaker _ _ _ _ _ _ _ _ (by decide) (by decide)
    (by decide) rfl rfl rfl rfl

/-- Reduction of the pre-hook to its quota-evaluation switch, for a call that
reaches the customer-state checks: provisioned account, successful customer
lookup, passing status check. -/
theorem preUsageFunc_switch
    (bc : BillingClient) (pcv : Option (Except GoError PowUser))
    (cols : Collections) (acc : AccountCtx) (key? : Option APIKey)
    (bo : Option BucketOwner) (method : String) (cus : Customer)
    (hm1 : authIgnoredMethods.contains method = false)
    (hm2 : usageIgnoredMethods.contains method = false)
    (hnew : ¬(acc.user.createdAt = 0 ∧ acc.user.type = AccountType.user))
    (hget : bc.getCustomer acc.owner.key = Except.ok cus)
    (hstat : common_StatusCheck cus.subscriptionStatus = none) :
    preUsageFunc ⟨some bc, pcv, cols⟩ ⟨some acc, key?, bo⟩ method
      = if cus.billable = false ∧
            (getUsage cus.dailyUsage "network_egress").free = 0 then
          (⟨some acc, key?, bo⟩, some egressExhaustedErr)
        else if storageWriteMethods.contains method then
          (⟨some acc, key?, some
             { storageUsed := (getUsage cus.dailyUsage "stored_data").total
               storageAvailable := if cus.billable then -1
                 else (getUsage cus.dailyUsage "stored_data").free
               storageDelta := 0 }⟩, none)
        else if recordReadMethods.contains method then
          if cus.billable = false ∧
              (getUsage cus.dailyUsage "instance_reads").free = 0 then
            (⟨some acc, key?, bo⟩, some readsExhaustedErr)
          else (⟨some acc, key?, bo⟩, none)
        else if recordWriteMethods.contains method then
          if cus.billable = false ∧
              (getUsage cus.dailyUsage "instance_writes").free = 0 then
            (⟨some acc, key?, bo⟩, some writesExhaustedErr)
          else (⟨some acc, key?, bo⟩, none)
        else (⟨some acc, key?, bo⟩, none) := by
  simp only [preUsageFunc, hm1, hm2, Bool.false_eq_true, if_false,
    if_neg hnew, hget, hstat]

/-- C3: for every storage-write method the pre-hook never denies at the
quota-evaluation stage and attaches a snapshot with `used` equal to the
`stored_data` counter's `Total` and `available` equal to `-1` for a billable
customer and to the counter's `Free` otherwise; for every other method no
snapshot is attached. -/
theorem C3_storage_snapshot
    (bc : BillingClient) (pcv : Option (Except GoError PowUser))
    (cols : Collections) (acc : AccountCtx) (key? : Option APIKey)
    (bo : Option BucketOwner) (cus : Customer)
    (hnew : ¬(acc.user.createdAt = 0 ∧ acc.user.type = AccountType.user))
    (hget : bc.getCustomer acc.owner.key = Except.ok cus)
    (hstat : common_StatusCheck cus.subscriptionStatus = none)
    (hok : ¬(cus.billable = false ∧
             (getUsage cus.dailyUsage "network_egress").free = 0)) :
    (∀ method ∈ storageWriteMethods,
       preUsageFunc ⟨some bc, pcv, cols⟩ ⟨some acc, key?, bo⟩ method
         = (⟨some acc, key?, some
              { storageUsed := (getUsage cus.dailyUsage "stored_data").total
                storageAvailable := if cus.billable then -1
                  else (getUsage cus.dailyUsage "stored_data").free
                storageDelta := 0 }⟩, none)) ∧
    (∀ method, method ∉ storageWriteMethods →
       (preUsageFunc ⟨some bc, pcv, cols⟩ ⟨some acc, key?, bo⟩ method).1.bucketOwner
         = bo) := by
  constructor
  · intro method hmem
    simp only [storageWriteMethods, List.mem_cons, List.not_mem_nil,
      or_false] at hmem
    rcases hmem with rfl | rfl | rfl | rfl | rfl | rfl <;>
      rw [preUsageFunc_switch bc pcv cols acc key? bo _ cus (by decide)
            (by decide) hnew hget hstat, if_neg hok, if_pos (by decide)]
  · intro method hmem
    by_cases h1 : method ∈ authIgnoredMethods
    · simp [preUsageFunc, h1]
    · by_cases h2 : method ∈ usageIgnoredMethods
      · simp [preUsageFunc, h1, h2]
      · rw [preUsageFunc_switch bc pcv cols acc key? bo method cus
              (by simpa using h1) (by simpa using h2) hnew hget hstat]
        rw [if_neg hok, if_neg (by simpa using hmem)]
        split_ifs <;> rfl

theorem C3_storage_snapshot_witness :
    preUsageFunc ⟨some (constBC cusBillable), none, colsSample⟩ sampleCtx
        "/api.bucketsd.pb.APIService/PushPath"
      = (⟨some accOld, none, some
           { storageUsed := 0, storageAvailable := -1, storageDelta := 0 }⟩,
         none) ∧
    (preUsageFunc ⟨some (constBC cusBillable), none, colsSample⟩ sampleCtx
        "/threads.pb.API/Has").1.bucketOwner = none := by
  have h := C3_storage_snapshot (constBC cusBillable) none colsSample accOld
    none none cusBillable (by decide) rfl rfl (by decide)
  exact ⟨(h.1 _ (by decide)).trans rfl, h.2 _ (by decide)⟩

/-- C5: for a non-billable customer (with egress quota left), a record-read
method fails with `ResourceExhausted` exactly when `instance_reads` has zero
free quota, a record-write method fails exactly when `instance_writes` has
zero free quota, and the same state never denies a storage-write method at
this stage. -/
theorem C5_record_quota
    (bc : BillingClient) (pcv : Option (Except GoError PowUser))
    (cols : Collections) (acc : AccountCtx) (key? : Option APIKey)
    (bo : Option BucketOwner) (cus : Customer)
    (hnew : ¬(acc.user.createdAt = 0 ∧ acc.user.type = AccountType.user))
    (hget : bc.getCustomer acc.owner.key = Except.ok cus)
    (hstat : common_StatusCheck cus.subscriptionStatus = none)
    (hbill : cus.billable = false)
    (hegress : (getUsage cus.dailyUsage "network_egress").free ≠ 0) :
    (∀ method ∈ recordReadMethods,
       preUsageFunc ⟨some bc, pcv, cols⟩ ⟨some acc, key?, bo⟩ method
         = (⟨some acc, key?, bo⟩,
            if (getUsage cus.dailyUsage "instance_reads").free = 0
            then some readsExhaustedErr else none)) ∧
    (∀ method ∈ recordWriteMethods,
       preUsageFunc ⟨some bc, pcv, cols⟩ ⟨some acc, key?, bo⟩ method
         = (⟨some acc, key?, bo⟩,
            if (getUsage cus.dailyUsage "instance_writes").free = 0
            then some writesExhaustedErr else none)) ∧
    (∀ method ∈ storageWriteMethods,
       (preUsageFunc ⟨some bc, pcv, cols⟩ ⟨some acc, key?, bo⟩ method).2
         = none) := by
  have hE : ¬(cus.billable = false ∧
      (getUsage cus.dailyUsage "network_egress").free = 0) :=
    fun h => hegress h.2
  refine ⟨?_, ?_, ?_⟩
  · intro method hmem
    simp only [recordReadMethods, List.mem_cons, List.not_mem_nil,
      or_false] at hmem
    rcases hmem with rfl | rfl | rfl | rfl | rfl | rfl <;>
      · rw [preUsageFunc_switch bc pcv cols acc key? bo _ cus (by decide)
              (by decide) hnew hget hstat, if_neg hE, if_neg (by decide),
            if_pos (by decide)]
        by_cases hf : (getUsage cus.dailyUsage "instance_reads").free = 0
        · rw [if_pos ⟨hbill, hf⟩, if_pos hf]
        · rw [if_neg (fun h => hf h.2), if_neg hf]
  · intro method hmem
    simp only [recordWriteMethods, List.mem_cons, List.not_mem_nil,
      or_false] at hmem
    rcases hmem with rfl | rfl | rfl | rfl <;>
      · rw [preUsageFunc_switch bc pcv cols acc key? bo _ cus (by decide)
              (by decide) hnew hget hstat, if_neg hE, if_neg (by decide),
            if_neg (by decide), if_pos (by decide)]
        by_cases hf : (getUsage cus.dailyUsage "instance_writes").free = 0
        · rw [if_pos ⟨hbill, hf⟩, if_pos hf]
        · rw [if_neg (fun h => hf h.2), if_neg hf]
  · intro method hmem
    simp only [storageWriteMethods, List.mem_cons, List.not_mem_nil,
      or_false] at hmem
    rcases hmem with rfl | rfl | rfl | rfl | rfl | rfl <;>
      rw [preUsageFunc_switch bc pcv cols acc key? bo _ cus (by decide)
            (by decide) hnew hget hstat, if_neg hE, if_pos (by decide)]

theorem C5_record_quota_witness :
    preUsageFunc ⟨some (constBC cusMixed), none, colsSample⟩ sampleCtx
        "/threads.pb.API/Verify" = (sampleCtx, some readsExhaustedErr) ∧
    preUsageFunc ⟨some (constBC cusMixed), none, colsSample⟩ sampleCtx
        "/threads.pb.API/Create" = (sampleCtx, none) := by
  have h := C5_record_quota (constBC cusMixed) none colsSample accOld none
    none cusMixed (by decide) rfl rfl rfl (by decide)
  exact ⟨(h.1 _ (by decide)).trans rfl, (h.2.1 _ (by decide)).trans rfl⟩

/-- A free-tier customer with egress quota left and no entry at all for the
`instance_reads` category. -/
def cusNoReadsEntry : Customer :=
  { billable := false, subscriptionStatus := SubStatus.valid
    dailyUsage := [("network_egress", ⟨5, 0⟩)] }

/-- C10: for a non-billable customer whose daily-usage map has no entry for
the checked category key, the pre-hook treats the missing counter as zero
free quota and denies with `ResourceExhausted`, exactly as if the counter
were present with `Free = 0`. -/
theorem C10_missing_counter_is_zero
    (bc : BillingClient) (pcv : Option (Except GoError PowUser))
    (cols : Collections) (acc : AccountCtx) (key? : Option APIKey)
    (bo : Option BucketOwner) (cus : Customer)
    (hnew : ¬(acc.user.createdAt = 0 ∧ acc.user.type = AccountType.user))
    (hget : bc.getCustomer acc.owner.key = Except.ok cus)
    (hstat : common_StatusCheck cus.subscriptionStatus = none)
    (hbill : cus.billable = false) :
    (∀ (du : List (String × Usage)) (k : String), du.lookup k = none →
       getUsage du k = { free := 0, total := 0 }) ∧
    (cus.dailyUsage.lookup "network_egress" = none →
       ∀ method, authIgnoredMethods.contains method = false →
         usageIgnoredMethods.contains method = false →
         preUsageFunc ⟨some bc, pcv, cols⟩ ⟨some acc, key?, bo⟩ method
           = (⟨some acc, key?, bo⟩, some egressExhaustedErr)) ∧
    ((getUsage cus.dailyUsage "network_egress").free ≠ 0 →
       cus.dailyUsage.lookup "instance_reads" = none →
       ∀ method ∈ recordReadMethods,
         preUsageFunc ⟨some bc, pcv, cols⟩ ⟨some acc, key?, bo⟩ method
           = (⟨some acc, key?, bo⟩, some readsExhaustedErr)) ∧
    ((getUsage cus.dailyUsage "network_egress").free ≠ 0 →
       cus.dailyUsage.lookup "instance_writes" = none →
       ∀ method ∈ recordWriteMethods,
         preUsageFunc ⟨some bc, pcv, cols⟩ ⟨some acc, key?, bo⟩ method
           = (⟨some acc, key?, bo⟩, some writesExhaustedErr)) := by
  refine ⟨?_, ?_, ?_, ?_⟩
  · intro du k h
    simp [getUsage, h]
  · intro hlk method hm1 hm2
    have hfree : (getUsage cus.dailyUsage "network_egress").free = 0 := by
      simp [getUsage, hlk]
    rw [preUsageFunc_switch bc pcv cols acc key? bo method cus hm1 hm2
          hnew hget hstat, if_pos ⟨hbill, hfree⟩]
  · intro hegress hlk method hmem
    have hE : ¬(cus.billable = false ∧
        (getUsage cus.dailyUsage "network_egress").free = 0) :=
      fun h => hegress h.2
    have hfree : (getUsage cus.dailyUsage "instance_reads").free = 0 := by
      simp [getUsage, hlk]
    simp only [recordReadMethods, List.mem_cons, List.not_mem_nil,
      or_false] at hmem
    rcases hmem with rfl | rfl | rfl | rfl | rfl | rfl <;>
      rw [preUsageFunc_switch bc pcv cols acc key? bo _ cus (by decide)
            (by decide) hnew hget hstat, if_neg hE, if_neg (by decide),
          if_pos (by decide), if_pos ⟨hbill, hfree⟩]
  · intro hegress hlk method hmem
    have hE : ¬(cus.billable = false ∧
        (getUsage cus.dailyUsage "network_egress").free = 0) :=
      fun h => hegress h.2
    have hfree : (getUsage cus.dailyUsage "instance_writes").free = 0 := by
      simp [getUsage, hlk]
    simp only [recordWriteMethods, List.mem_cons, List.not_mem_nil,
      or_false] at hmem
    rcases hmem with rfl | rfl | rfl | rfl <;>
      rw [preUsageFunc_switch bc pcv cols acc key? bo _ cus (by decide)
            (by decide) hnew hget hstat, if_neg hE, if_neg (by decide),
          if_neg (by decide), if_pos (by decide), if_pos ⟨hbill, hfree⟩]

theorem C10_missing_counter_is_zero_witness :
    getUsage cusNoReadsEntry.dailyUsage "instance_reads"
      = { free := 0, total := 0 } ∧
    preUsageFunc ⟨some (constBC cusNoReadsEntry), none, colsSample⟩ sampleCtx
        "/threads.pb.API/Find" = (sampleCtx, some readsExhaustedErr) := by
  have h := C10_missing_counter_is_zero (constBC cusNoReadsEntry) none
    colsSample accOld none none cusNoReadsEntry (by decide) rfl rfl rfl
  exact ⟨h.1 _ _ (by decide), h.2.2.1 (by decide) (by decide) _ (by decide)⟩

/-- A billing client like `constBC c` except that usage increments fail
with `e`. -/
def failIncBC (c : Customer) (e : GoError) : BillingClient :=
  { getCustomer := fun _ => Except.ok c
    createCustomer := fun _ _ => Except.ok ()
    getCustomerAfterCreate := fun _ => Except.ok c
    incCustomerUsage := fun _ _ => Except.error e }

/-- Reduction of the post-hook on a storage-write method with an account and
a snapshot in context: one `stored_data` increment by the snapshot delta is
issued, and its failure becomes the hook's error. -/
theorem postUsageFunc_storage
    (bc : BillingClient) (pcv : Option (Except GoError PowUser))
    (cols : Collections) (acc : AccountCtx) (key? : Option APIKey)
    (owner : BucketOwner) (method : String)
    (hm : method ∈ storageWriteMethods) :
    postUsageFunc ⟨some bc, pcv, cols⟩ ⟨some acc, key?, some owner⟩ method
      = ((match bc.incCustomerUsage acc.owner.key
              [("stored_data", owner.storageDelta)] with
          | Except.error e => some (UsageErr.go e)
          | Except.ok _ => none),
         [⟨acc.owner.key, [("stored_data", owner.storageDelta)]⟩]) := by
  simp only [storageWriteMethods, List.mem_cons, List.not_mem_nil,
    or_false] at hm
  rcases hm with rfl | rfl | rfl | rfl | rfl | rfl <;>
    cases h : bc.incCustomerUsage acc.owner.key
        [("stored_data", owner.storageDelta)] <;>
      simp [postUsageFunc, h, authIgnoredMethods, storageWriteMethods]

/-- C4: for every storage-category method with an account and a quota snapshot
in context, the post-hook increments the owning entity's `stored_data` counter
by exactly the snapshot's delta (possibly negative), and a failure of this
increment becomes the call's error even though the handler already
succeeded. -/
theorem C4_storage_usage_commit
    (bc : BillingClient) (pcv : Option (Except GoError PowUser))
    (cols : Collections) (acc : AccountCtx) (key? : Option APIKey)
    (owner : BucketOwner) (method : String)
    (hm : method ∈ storageWriteMethods) :
    (postUsageFunc ⟨some bc, pcv, cols⟩ ⟨some acc, key?, some owner⟩ method
       = ((match bc.incCustomerUsage acc.owner.key
               [("stored_data", owner.storageDelta)] with
           | Except.error e => some (UsageErr.go e)
           | Except.ok _ => none),
          [⟨acc.owner.key, [("stored_data", owner.storageDelta)]⟩])) ∧
    (∀ {Req Res : Type} (pre : Ctx → String → Ctx × Option UsageErr)
       (handler : Ctx → Req → Option Res × Option UsageErr)
       (ctx0 : Ctx) (req : Req) (r : Option Res) (e : GoError),
       pre ctx0 method = (⟨some acc, key?, some owner⟩, none) →
       handler ⟨some acc, key?, some owner⟩ req = (r, none) →
       bc.incCustomerUsage acc.owner.key [("stored_data", owner.storageDelta)]
         = Except.error e →
       unaryServerInterceptor pre (postUsageFunc ⟨some bc, pcv, cols⟩)
           handler ctx0 req method
         = ((none, some (UsageErr.go e)),
            [⟨acc.owner.key, [("stored_data", owner.storageDelta)]⟩])) := by
  constructor
  · exact postUsageFunc_storage bc pcv cols acc key? owner method hm
  · intro Req Res pre handler ctx0 req r e hpre hhandler hinc
    simp only [unaryServerInterceptor, hpre, hhandler,
      postUsageFunc_storage bc pcv cols acc key? owner method hm, hinc]

theorem C4_storage_usage_commit_witness :
    postUsageFunc ⟨some (constBC cusBillable), none, colsSample⟩
        ⟨some accOld, none, some ⟨7, -1, -3⟩⟩ "/api.bucketsd.pb.APIService/Remove"
      = (none, [⟨"u1", [("stored_data", -3)]⟩]) ∧
    unaryServerInterceptor
        (fun _ _ => (⟨some accOld, none, some ⟨7, -1, -3⟩⟩, none))
        (postUsageFunc
          ⟨some (failIncBC cusBillable ⟨"inc failed"⟩), none, colsSample⟩)
        (fun _ (_ : Unit) => ((some 42 : Option Nat), none))
        ⟨some accOld, none, none⟩ () "/api.bucketsd.pb.APIService/Remove"
      = ((none, some (UsageErr.go ⟨"inc failed"⟩)),
         [⟨"u1", [("stored_data", -3)]⟩]) := by
  constructor
  · exact ((C4_storage_usage_commit (constBC cusBillable) none colsSample
      accOld none ⟨7, -1, -3⟩ _ (by decide)).1).trans rfl
  · exact (C4_storage_usage_commit (failIncBC cusBillable ⟨"inc failed"⟩)
      none colsSample accOld none ⟨7, -1, -3⟩ _ (by decide)).2
      _ _ _ () (some 42) ⟨"inc failed"⟩ rfl rfl rfl

/-- C6: in both interceptors a pre-hook error aborts before the handler runs,
a handler error aborts before the post-hook runs (no increment is issued), a
post-hook error is returned even though the handler succeeded, and the
post-hook receives the same context value the handler received. -/
theorem C6_interceptor_ordering {Req Res Srv : Type} :
    (∀ (pre : Ctx → String → Ctx × Option UsageErr)
       (post : Ctx → String → Option UsageErr × List IncCall)
       (handler : Ctx → Req → Option Res × Option UsageErr)
       (ctx : Ctx) (req : Req) (method : String) (c : Ctx) (e : UsageErr),
       pre ctx method = (c, some e) →
       unaryServerInterceptor pre post handler ctx req method
         = ((none, some e), [])) ∧
    (∀ (pre : Ctx → String → Ctx × Option UsageErr)
       (post : Ctx → String → Option UsageErr × List IncCall)
       (handler : Ctx → Req → Option Res × Option UsageErr)
       (ctx : Ctx) (req : Req) (method : String) (c : Ctx)
       (r : Option Res) (e : UsageErr),
       pre ctx method = (c, none) → handler c req = (r, some e) →
       unaryServerInterceptor pre post handler ctx req method
         = ((none, some e), [])) ∧
    (∀ (pre : Ctx → String → Ctx × Option UsageErr)
       (post : Ctx → String → Option UsageErr × List IncCall)
       (handler : Ctx → Req → Option Res × Option UsageErr)
       (ctx : Ctx) (req : Req) (method : String) (c : Ctx)
       (r : Option Res) (pe : Option UsageErr) (incs : List IncCall),
       pre ctx method = (c, none) → handler c req = (r, none) →
       post c method = (pe, incs) →
       unaryServerInterceptor pre post handler ctx req method
         = ((match pe with
             | some e => ((none : Option Res), some e)
             | none => (r, none)), incs)) ∧
    (∀ (pre : Ctx → String → Ctx × Option UsageErr)
       (post : Ctx → String → Option UsageErr × List IncCall)
       (shandler : Srv → Ctx → Option UsageErr)
       (srv : Srv) (sctx : Ctx) (method : String) (c : Ctx) (e : UsageErr),
       pre sctx method = (c, some e) →
       streamServerInterceptor pre post shandler srv sctx method
         = (some e, [])) ∧
    (∀ (pre : Ctx → String → Ctx × Option UsageErr)
       (post : Ctx → String → Option UsageErr × List IncCall)
       (shandler : Srv → Ctx → Option UsageErr)
       (srv : Srv) (sctx : Ctx) (method : String) (c : Ctx) (e : UsageErr),
       pre sctx method = (c, none) → shandler srv c = some e →
       streamServerInterceptor pre post shandler srv sctx method
         = (some e, [])) ∧
    (∀ (pre : Ctx → String → Ctx × Option UsageErr)
       (post : Ctx → String → Option UsageErr × List IncCall)
       (shandler : Srv → Ctx → Option UsageErr)
       (srv : Srv) (sctx : Ctx) (method : String) (c : Ctx),
       pre sctx method = (c, none) → shandler srv c = none →
       streamServerInterceptor pre post shandler srv sctx method
         = post c method) := by
  refine ⟨?_, ?_, ?_, ?_, ?_, ?_⟩
  · intro pre post handler ctx req method c e hpre
    simp only [unaryServerInterceptor, hpre]
  · intro pre post handler ctx req method c r e hpre hh
    simp only [unaryServerInterceptor, hpre, hh]
  · intro pre post handler ctx req method c r pe incs hpre hh hpost
    cases pe <;> simp only [unaryServerInterceptor, hpre, hh, hpost]
  · intro pre post shandler srv sctx method c e hpre
    simp only [streamServerInterceptor, hpre]
  · intro pre post shandler srv sctx method c e hpre hh
    simp only [streamServerInterceptor, hpre, hh]
  · intro pre post shandler srv sctx method c hpre hh
    simp only [streamServerInterceptor, hpre, hh]

theorem C6_interceptor_ordering_witness :
    unaryServerInterceptor (fun c _ => (c, none))
        (fun _ _ => (none, [⟨"k", [("stored_data", 1)]⟩]))
        (fun _ (_ : Unit) =>
          ((none : Option Nat),
           some (UsageErr.grpc GrpcCode.resourceExhausted "x")))
        ⟨none, none, none⟩ () "m"
      = ((none, some (UsageErr.grpc GrpcCode.resourceExhausted "x")), []) ∧
    streamServerInterceptor (fun c _ => (c, none)) (fun _ _ => (none, []))
        (fun (_ : Unit) _ => none) () ⟨none, none, none⟩ "m"
      = (none, []) := by
  constructor
  · exact (@C6_interceptor_ordering Unit Nat Unit).2.1 _ _ _ _ _ _
      ⟨none, none, none⟩ none (UsageErr.grpc GrpcCode.resourceExhausted "x")
      rfl rfl
  · exact ((@C6_interceptor_ordering Unit Nat Unit).2.2.2.2.2 _ _ _ _ _ _
      ⟨none, none, none⟩ rfl rfl).trans rfl

/-- C7: when the customer lookup fails with the mongo not-found condition, the
pre-hook creates the customer with the owner's email (adding the parent-key
option from the API key's owner for an individual user, and failing with
`PermissionDenied` when no API key is in context), then re-fetches the
customer in a separate read; any other lookup failure aborts with that
error. -/
theorem C7_customer_creation
    (bc : BillingClient) (pcv : Option (Except GoError PowUser))
    (cols : Collections) (acc : AccountCtx) (bo : Option BucketOwner)
    (method : String) (e : GoError)
    (hm1 : authIgnoredMethods.contains method = false)
    (hm2 : usageIgnoredMethods.contains method = false)
    (hnew : ¬(acc.user.createdAt = 0 ∧ acc.user.type = AccountType.user))
    (hget : bc.getCustomer acc.owner.key = Except.error e) :
    (containsNoDocuments e = false →
       ∀ key? : Option APIKey,
         preUsageFunc ⟨some bc, pcv, cols⟩ ⟨some acc, key?, bo⟩ method
           = (⟨some acc, key?, bo⟩, some (UsageErr.go e))) ∧
    (containsNoDocuments e = true → acc.owner.type = AccountType.user →
       preUsageFunc ⟨some bc, pcv, cols⟩ ⟨some acc, none, bo⟩ method
         = (⟨some acc, none, bo⟩,
            some (UsageErr.grpc GrpcCode.permissionDenied "Bad API key"))) ∧
    (containsNoDocuments e = true → acc.owner.type = AccountType.user →
       ∀ (k : APIKey) (e2 : GoError),
         bc.createCustomer acc.owner.key
             [BillingOption.withEmail acc.owner.email,
              BillingOption.withParentKey k.owner] = Except.error e2 →
         preUsageFunc ⟨some bc, pcv, cols⟩ ⟨some acc, some k, bo⟩ method
           = (⟨some acc, some k, bo⟩, some (UsageErr.go e2))) ∧
    (containsNoDocuments e = true → acc.owner.type ≠ AccountType.user →
       ∀ (key? : Option APIKey) (e2 : GoError),
         bc.createCustomer acc.owner.key
             [BillingOption.withEmail acc.owner.email] = Except.error e2 →
         preUsageFunc ⟨some bc, pcv, cols⟩ ⟨some acc, key?, bo⟩ method
           = (⟨some acc, key?, bo⟩, some (UsageErr.go e2))) ∧
    (containsNoDocuments e = true → acc.owner.type = AccountType.user →
       ∀ (k : APIKey) (e3 : GoError),
         bc.createCustomer acc.owner.key
             [BillingOption.withEmail acc.owner.email,
              BillingOption.withParentKey k.owner] = Except.ok () →
         bc.getCustomerAfterCreate acc.owner.key = Except.error e3 →
         preUsageFunc ⟨some bc, pcv, cols⟩ ⟨some acc, some k, bo⟩ method
           = (⟨some acc, some k, bo⟩, some (UsageErr.go e3))) ∧
    (containsNoDocuments e = true → acc.owner.type = AccountType.user →
       ∀ (k : APIKey) (cus : Customer),
         bc.createCustomer acc.owner.key
             [BillingOption.withEmail acc.owner.email,
              BillingOption.withParentKey k.owner] = Except.ok () →
         bc.getCustomerAfterCreate acc.owner.key = Except.ok cus →
         common_StatusCheck cus.subscriptionStatus = none →
         cus.billable = true →
         method ∉ storageWriteMethods → method ∉ recordReadMethods →
         method ∉ recordWriteMethods →
         preUsageFunc ⟨some bc, pcv, cols⟩ ⟨some acc, some k, bo⟩ method
           = (⟨some acc, some k, bo⟩, none)) := by
  refine ⟨?_, ?_, ?_, ?_, ?_, ?_⟩
  · intro hnd key?
    simp only [preUsageFunc, hm1, hm2, Bool.false_eq_true, if_false,
      if_neg hnew, hget, hnd]
  · intro hnd htype
    simp only [preUsageFunc, hm1, hm2, Bool.false_eq_true, if_false,
      if_neg hnew, hget, hnd, htype, if_true]
  · intro hnd htype k e2 hcreate
    simp only [preUsageFunc, hm1, hm2, Bool.false_eq_true, if_false,
      if_neg hnew, hget, hnd, htype, if_true, List.singleton_append,
      hcreate]
  · intro hnd htype key? e2 hcreate
    simp only [preUsageFunc, hm1, hm2, Bool.false_eq_true, if_false, if_true,
      if_neg hnew, hget, hnd, if_neg htype, hcreate]
  · intro hnd htype k e3 hcreate hfetch
    simp only [preUsageFunc, hm1, hm2, Bool.false_eq_true, if_false,
      if_neg hnew, hget, hnd, htype, if_true, List.singleton_append,
      hcreate, hfetch]
  · intro hnd htype k cus hcreate hfetch hstat hb hs hr hw
    simp [preUsageFunc, hm1, hm2, hnew, hget, hnd, htype, hcreate, hfetch,
      hstat, hb, hs, hr, hw]

theorem C7_customer_creation_witness :
    preUsageFunc ⟨some (notFoundBC cusBillable), none, colsSample⟩
        ⟨some accOld, none, none⟩ "/threads.pb.API/GetToken"
      = (⟨some accOld, none, none⟩,
         some (UsageErr.grpc GrpcCode.permissionDenied "Bad API key")) ∧
    preUsageFunc ⟨some (notFoundBC cusBillable), none, colsSample⟩
        ⟨some accOld, some ⟨"orgkey"⟩, none⟩ "/threads.pb.API/GetToken"
      = (⟨some accOld, some ⟨"orgkey"⟩, none⟩, none) := by
  have h := C7_customer_creation (notFoundBC cusBillable) none colsSample
    accOld none "/threads.pb.API/GetToken" ⟨mongoErrNoDocuments⟩
    (by decide) (by decide) (by decide) rfl
  exact ⟨h.2.1 (by decide) rfl,
         h.2.2.2.2.2 (by decide) rfl ⟨"orgkey"⟩ cusBillable rfl rfl rfl rfl
           (by decide) (by decide) (by decide)⟩

/-- A first-time individual-user account pair (`CreatedAt` zero). -/
def accNew : AccountCtx :=
  { user := { type := AccountType.user, key := "u2",
              email := "fresh@example.com", createdAt := 0 }
    org := none }

/-- C8: for a first-time individual-user account, a successful pre-hook
provisions a backend identity when a provisioning service is configured
(and still creates the account without one), persists the new record, and
replaces the account in the returned context; a provisioning failure aborts
the call with the underlying error. -/
theorem C8_first_time_user_provisioning
    (bc : BillingClient) (cols : Collections) (acc : AccountCtx)
    (key? : Option APIKey) (bo : Option BucketOwner) (method : String)
    (hm1 : authIgnoredMethods.contains method = false)
    (hm2 : usageIgnoredMethods.contains method = false)
    (hz : acc.user.createdAt = 0)
    (ht : acc.user.type = AccountType.user) :
    (∀ e : GoError,
       preUsageFunc ⟨some bc, some (Except.error e), cols⟩
           ⟨some acc, key?, bo⟩ method
         = (⟨some acc, key?, bo⟩, some (UsageErr.go e))) ∧
    (∀ (pu : PowUser) (newUser : AccountRecord) (cus : Customer),
       cols.createUser acc.user.key (some ⟨pu.id, pu.token⟩)
         = Except.ok newUser →
       bc.getCustomer (AccountCtx.owner ⟨newUser, acc.org⟩).key
         = Except.ok cus →
       common_StatusCheck cus.subscriptionStatus = none →
       cus.billable = true →
       method ∉ storageWriteMethods → method ∉ recordReadMethods →
       method ∉ recordWriteMethods →
       preUsageFunc ⟨some bc, some (Except.ok pu), cols⟩
           ⟨some acc, key?, bo⟩ method
         = (⟨some ⟨newUser, acc.org⟩, key?, bo⟩, none)) ∧
    (∀ (newUser : AccountRecord) (cus : Customer),
       cols.createUser acc.user.key none = Except.ok newUser →
       bc.getCustomer (AccountCtx.owner ⟨newUser, acc.org⟩).key
         = Except.ok cus →
       common_StatusCheck cus.subscriptionStatus = none →
       cus.billable = true →
       method ∉ storageWriteMethods → method ∉ recordReadMethods →
       method ∉ recordWriteMethods →
       preUsageFunc ⟨some bc, none, cols⟩ ⟨some acc, key?, bo⟩ method
         = (⟨some ⟨newUser, acc.org⟩, key?, bo⟩, none)) ∧
    (∀ (pu : PowUser) (newUser : AccountRecord) (cus : Customer),
       cols.createUser acc.user.key (some ⟨pu.id, pu.token⟩)
         = Except.ok newUser →
       bc.getCustomer (AccountCtx.owner ⟨newUser, acc.org⟩).key
         = Except.ok cus →
       common_StatusCheck cus.subscriptionStatus = none →
       cus.billable = true →
       method ∉ storageWriteMethods → method ∉ recordReadMethods →
       method ∉ recordWriteMethods →
       newUser.createdAt ≠ 0 →
       ∃ a : AccountCtx,
         (preUsageFunc ⟨some bc, some (Except.ok pu), cols⟩
             ⟨some acc, key?, bo⟩ method).1.account = some a ∧
         a.user.createdAt ≠ 0) := by
  have hm1' : method ∉ authIgnoredMethods := by simpa using hm1
  have hm2' : method ∉ usageIgnoredMethods := by simpa using hm2
  refine ⟨?_, ?_, ?_, ?_⟩
  · intro e
    simp only [preUsageFunc, hm1, hm2, Bool.false_eq_true, if_false,
      if_pos (And.intro hz ht)]
  · intro pu newUser cus hcreate hget hstat hb hs hr hw
    simp [preUsageFunc, hm1', hm2', hz, ht, hcreate, hget, hstat, hb,
      hs, hr, hw]
  · intro newUser cus hcreate hget hstat hb hs hr hw
    simp [preUsageFunc, hm1', hm2', hz, ht, hcreate, hget, hstat, hb,
      hs, hr, hw]
  · intro pu newUser cus hcreate hget hstat hb hs hr hw hnz
    refine ⟨⟨newUser, acc.org⟩, ?_, hnz⟩
    simp [preUsageFunc, hm1', hm2', hz, ht, hcreate, hget, hstat, hb,
      hs, hr, hw]

theorem C8_first_time_user_provisioning_witness :
    preUsageFunc ⟨some (constBC cusBillable),
        some (Except.error ⟨"pow down"⟩), colsSample⟩
        ⟨some accNew, none, none⟩ "/threads.pb.API/GetToken"
      = (⟨some accNew, none, none⟩, some (UsageErr.go ⟨"pow down"⟩)) ∧
    preUsageFunc ⟨some (constBC cusBillable),
        some (Except.ok ⟨"pid", "ptok"⟩), colsSample⟩
        ⟨some accNew, none, none⟩ "/threads.pb.API/GetToken"
      = (⟨some ⟨{ type := AccountType.user, key := "u2",
                  email := "new@example.com", createdAt := 9 }, none⟩,
          none, none⟩, none) ∧
    preUsageFunc ⟨some (constBC cusBillable), none, colsSample⟩
        ⟨some accNew, none, none⟩ "/threads.pb.API/GetToken"
      = (⟨some ⟨{ type := AccountType.user, key := "u2",
                  email := "new@example.com", createdAt := 9 }, none⟩,
          none, none⟩, none) := by
  have h := C8_first_time_user_provisioning (constBC cusBillable) colsSample
    accNew none none "/threads.pb.API/GetToken" (by decide) (by decide)
    rfl rfl
  exact ⟨h.1 ⟨"pow down"⟩,
         h.2.1 ⟨"pid", "ptok"⟩ _ cusBillable rfl rfl rfl rfl (by decide)
           (by decide) (by decide),
         h.2.2.1 _ cusBillable rfl rfl rfl rfl (by decide) (by decide)
           (by decide)⟩
